import Mathlib

/-!
# Verification of the iPXE DMA mapping abstraction (flat implementation)

Shallow embedding of `src/include/ipxe/dma.h`: the flat (identity-mapping)
DMA operations, the device context with its debug counters, the mask helper
`dma_set_mask_64bit` and the transmit I/O-buffer wrapper `dma_map_tx_iob`.

Modelling conventions:
* Pointers and `physaddr_t` values are natural numbers, with `0` standing
  for the C `NULL` pointer.  The platform is 64-bit, so `physaddr_t`
  arithmetic is modulo `PHYS_MOD = 2 ^ 64`.
* `unsigned int` counters wrap modulo `UINT_MOD = 2 ^ 32`; the C `++` and
  `--` on the debug counters are embedded with the modulus made explicit.
* The compile-time flag `DBG_LOG` becomes a `Bool` parameter `dbg`.
* External collaborators (`malloc_phys`, `free_phys`, `virt_to_phys`, the
  I/O buffer type) are out of scope per the specification: `malloc_phys`
  and `virt_to_phys` are function parameters, and the call to `free_phys`
  is recorded as the argument pair the flat code passes to it.
-/

set_option autoImplicit false

namespace Ipxe

/-- Modulus of the C `unsigned int` type (32 bits), i.e. `2 ^ 32`. -/
def UINT_MOD : Nat := 4294967296

/-- Modulus of `physaddr_t` on a 64-bit platform, i.e. `2 ^ 64`. -/
def PHYS_MOD : Nat := 18446744073709551616

/-- C bitwise complement `~x` at `physaddr_t` width. -/
def physNot (x : Nat) : Nat := (PHYS_MOD - 1) ^^^ (x % PHYS_MOD)

/-- A DMA mapping (`struct dma_mapping`): the device-side address `addr`
and the platform mapping token (a pointer, `0` = `NULL`). -/
structure dma_mapping where
  addr : Nat
  token : Nat
deriving DecidableEq

/-- A DMA-capable device (`struct dma_device`): the operations-table
pointer `op` (kept as a plain pointer value, since the flat path never
dereferences it), the addressable-space mask, and the two debug counters. -/
structure dma_device where
  op : Nat
  mask : Nat
  mapped : Nat
  allocated : Nat
deriving DecidableEq

/-- Mapping flag `DMA_TX`: device will read data from host memory. -/
def DMA_TX : Nat := 1

/-- Mapping flag `DMA_RX`: device will write data to host memory. -/
def DMA_RX : Nat := 2

/-- Mapping flag `DMA_BI`: both directions. -/
def DMA_BI : Nat := DMA_TX ||| DMA_RX

/-- Result of the flat `dma_map`: the returned status code, the filled-in
mapping, and the updated device. -/
structure MapResult where
  rc : Int
  map : dma_mapping
  dev : dma_device
deriving DecidableEq

/-- Result of the flat `dma_unmap`: the updated device and the mapping
object as it stands after the call (the flat code never writes it). -/
structure UnmapResult where
  dev : dma_device
  map : dma_mapping
deriving DecidableEq

/-- Result of the flat `dma_alloc`: the returned buffer pointer
(`0` = `NULL` on allocator failure), the filled-in mapping, and the
updated device. -/
structure AllocResult where
  addr : Nat
  map : dma_mapping
  dev : dma_device
deriving DecidableEq

/-- Result of the flat `dma_free`: the `(addr, len)` argument pair the
code passes to the external `free_phys`, and the updated device. -/
structure FreeResult where
  freed : Nat × Nat
  dev : dma_device
deriving DecidableEq

/-- Flat `dma_map` (`DMAAPI_INLINE ( flat, dma_map )`): uses the physical
address as the device address, increments the mapping count when
`DBG_LOG`, and returns status `0`.  `len` and `flags` are unused. -/
def flat_dma_map (dbg : Bool) (dma : dma_device) (addr : Nat) (_len : Nat)
    (_flags : Nat) (m : dma_mapping) : MapResult :=
  let m := { m with addr := addr }
  let dma := if dbg then { dma with mapped := (dma.mapped + 1) % UINT_MOD }
    else dma
  { rc := 0, map := m, dev := dma }

/-- Flat `dma_unmap`: decrements the mapping count when `DBG_LOG`; the
mapping argument is unused (and in particular never written). -/
def flat_dma_unmap (dbg : Bool) (dma : dma_device) (m : dma_mapping) :
    UnmapResult :=
  let dma := if dbg
    then { dma with mapped := (dma.mapped + (UINT_MOD - 1)) % UINT_MOD }
    else dma
  { dev := dma, map := m }

/-- Flat `dma_alloc`: calls the external allocator `malloc_phys len align`
(result `0` = `NULL` on failure), unconditionally stores
`virt_to_phys addr` into the mapping, and increments the allocation count
only when `DBG_LOG` and the returned pointer is non-`NULL`. -/
def flat_dma_alloc (dbg : Bool) (virt_to_phys : Nat → Nat)
    (malloc_phys : Nat → Nat → Nat) (dma : dma_device) (len align : Nat)
    (m : dma_mapping) : AllocResult :=
  let addr := malloc_phys len align
  let m := { m with addr := virt_to_phys addr }
  let dma := if dbg && addr != 0
    then { dma with allocated := (dma.allocated + 1) % UINT_MOD }
    else dma
  { addr := addr, map := m, dev := dma }

/-- Flat `dma_free`: passes `(addr, len)` to the external `free_phys`
(recorded in `freed`) and decrements the allocation count when
`DBG_LOG`; the mapping argument is unused. -/
def flat_dma_free (dbg : Bool) (dma : dma_device) (addr len : Nat)
    (_m : dma_mapping) : FreeResult :=
  let dma := if dbg
    then { dma with allocated := (dma.allocated + (UINT_MOD - 1)) % UINT_MOD }
    else dma
  { freed := (addr, len), dev := dma }

/-- Flat `dma_set_mask`: nothing to do. -/
def flat_dma_set_mask (dma : dma_device) (_mask : Nat) : dma_device := dma

/-- `dma_set_mask_64bit` under the flat API build: calls `dma_set_mask`
with `~( ( physaddr_t ) 0 )`, the all-ones 64-bit mask. -/
def dma_set_mask_64bit (dma : dma_device) : dma_device :=
  flat_dma_set_mask dma (PHYS_MOD - 1)

/-- Modelled from the spec: `struct io_buffer` is the external generic
I/O-buffer collaborator (its header is not among the sources); the spec
describes it as a data-buffer abstraction carrying an address and a
length.  `data` is the virtual address of the payload. -/
structure io_buffer where
  data : Nat
  len : Nat
deriving DecidableEq

/-- Modelled from the spec: `iob_len` (external collaborator) yields the
length of the data-buffer abstraction. -/
def iob_len (iobuf : io_buffer) : Nat := iobuf.len

/-- `dma_map_tx_iob` under the flat API build: maps the I/O buffer for
transmit by calling `dma_map` on `virt_to_phys ( iobuf->data )`,
`iob_len ( iobuf )` and `DMA_TX`. -/
def dma_map_tx_iob (dbg : Bool) (virt_to_phys : Nat → Nat)
    (dma : dma_device) (iobuf : io_buffer) (m : dma_mapping) : MapResult :=
  flat_dma_map dbg dma (virt_to_phys iobuf.data) (iob_len iobuf) DMA_TX m

/-- One call into the flat DMA API, for reasoning about the debug-counter
accounting over call sequences.  For `alloc`, `ptr` is the external
allocator's reply (`0` = `NULL` = allocation failure). -/
inductive DmaEvent where
  | map (addr len flags : Nat)
  | unmap
  | alloc (len align ptr : Nat)
  | free (addr len : Nat)
deriving DecidableEq

/-- Effect of one flat API call on the device context (the mapping
outputs, which carry no device state, are discarded). -/
def dmaStep (dbg : Bool) (dma : dma_device) (e : DmaEvent) : dma_device :=
  match e with
  | DmaEvent.map a l f => (flat_dma_map dbg dma a l f ⟨0, 0⟩).dev
  | DmaEvent.unmap => (flat_dma_unmap dbg dma ⟨0, 0⟩).dev
  | DmaEvent.alloc l al p =>
      (flat_dma_alloc dbg (fun x => x) (fun _ _ => p) dma l al ⟨0, 0⟩).dev
  | DmaEvent.free a l => (flat_dma_free dbg dma a l ⟨0, 0⟩).dev

/-- Run a sequence of flat API calls on a device context. -/
def dmaRun (dbg : Bool) (dma : dma_device) (es : List DmaEvent) :
    dma_device :=
  es.foldl (dmaStep dbg) dma

/-- Number of `map` calls in a sequence. -/
def mapCalls : List DmaEvent → Nat
  | [] => 0
  | DmaEvent.map _ _ _ :: es => mapCalls es + 1
  | DmaEvent.unmap :: es => mapCalls es
  | DmaEvent.alloc _ _ _ :: es => mapCalls es
  | DmaEvent.free _ _ :: es => mapCalls es

/-- Number of `unmap` calls in a sequence. -/
def unmapCalls : List DmaEvent → Nat
  | [] => 0
  | DmaEvent.map _ _ _ :: es => unmapCalls es
  | DmaEvent.unmap :: es => unmapCalls es + 1
  | DmaEvent.alloc _ _ _ :: es => unmapCalls es
  | DmaEvent.free _ _ :: es => unmapCalls es

/-- Number of successful `alloc` calls (allocator returned non-`NULL`)
in a sequence; a failed `alloc` creates nothing outstanding. -/
def allocOkCalls : List DmaEvent → Nat
  | [] => 0
  | DmaEvent.map _ _ _ :: es => allocOkCalls es
  | DmaEvent.unmap :: es => allocOkCalls es
  | DmaEvent.alloc _ _ p :: es =>
      if p != 0 then allocOkCalls es + 1 else allocOkCalls es
  | DmaEvent.free _ _ :: es => allocOkCalls es

/-- Number of `free` calls in a sequence. -/
def freeCalls : List DmaEvent → Nat
  | [] => 0
  | DmaEvent.map _ _ _ :: es => freeCalls es
  | DmaEvent.unmap :: es => freeCalls es
  | DmaEvent.alloc _ _ _ :: es => freeCalls es
  | DmaEvent.free _ _ :: es => freeCalls es + 1

/-- Balanced-sequence check: starting from `m` outstanding mappings and
`a` outstanding allocations, every `unmap` matches an outstanding `map`
and every `free` matches an outstanding successful `alloc`. -/
def balancedFrom (m a : Nat) : List DmaEvent → Bool
  | [] => true
  | DmaEvent.map _ _ _ :: es => balancedFrom (m + 1) a es
  | DmaEvent.unmap :: es => decide (0 < m) && balancedFrom (m - 1) a es
  | DmaEvent.alloc _ _ p :: es =>
      balancedFrom m (if p != 0 then a + 1 else a) es
  | DmaEvent.free _ _ :: es => decide (0 < a) && balancedFrom m (a - 1) es

/-! ## Theorems -/

/-- An in-range `unsigned int` increment does not wrap. -/
theorem wrapInc {M x : Nat} (h : x + 1 < M) : (x + 1) % M = x + 1 :=
  Nat.mod_eq_of_lt h

/-- An `unsigned int` decrement of a positive in-range counter, embedded
as `(x + (M - 1)) % M`, is plain subtraction by one. -/
theorem wrapDec {M x : Nat} (h0 : 0 < x) (hM : x < M) :
    (x + (M - 1)) % M = x - 1 := by
  have h1 : x + (M - 1) = (x - 1) + M := by omega
  rw [h1, Nat.add_mod_right]
  exact Nat.mod_eq_of_lt (by omega)

/-- C1: For every device, address, length and flags, the flat `dma_map`
returns status `0`, sets the mapping's device address equal to the input
address, and in debug builds advances the `mapped` counter by one (an
`unsigned int` increment; exactly one whenever the counter is in range).
It never fails, in particular never with a range error. -/
theorem flat_dma_map_spec (dbg : Bool) (dma : dma_device)
    (addr len flags : Nat) (m : dma_mapping) :
    (flat_dma_map dbg dma addr len flags m).rc = 0
    ∧ (flat_dma_map dbg dma addr len flags m).map.addr = addr
    ∧ (flat_dma_map true dma addr len flags m).dev.mapped
        = (dma.mapped + 1) % UINT_MOD
    ∧ (dma.mapped + 1 < UINT_MOD →
        (flat_dma_map true dma addr len flags m).dev.mapped
          = dma.mapped + 1) :=
  ⟨rfl, rfl, rfl, fun h => wrapInc h⟩

/-- C1 witness: the spec's concrete scenario, `map` of address `0x1000`
with length `64` and the transmit flag on a 32-bit-masked device. -/
theorem flat_dma_map_spec_witness :
    (flat_dma_map true ⟨0, 4294967295, 0, 0⟩ 4096 64 DMA_TX
        ⟨0, 0⟩).dev.mapped = 0 + 1 :=
  (flat_dma_map_spec true ⟨0, 4294967295, 0, 0⟩ 4096 64 DMA_TX
      ⟨0, 0⟩).2.2.2 (by decide)

/-- C3 counterexample: `dma_set_mask_64bit` under the flat API leaves the
device's `mask` field untouched (flat `dma_set_mask` is a no-op), so on a
device whose mask is `0` the mask afterwards is not the all-ones value. -/
theorem dma_set_mask_64bit_counterexample :
    (dma_set_mask_64bit ⟨0, 0, 0, 0⟩).mask ≠ PHYS_MOD - 1 := by
  decide

/-- C3 (amended): `dma_set_mask_64bit` invokes the set-mask operation
with the full all-ones representable mask, but under the flat
implementation that operation is a no-op, so the device — its `mask`
field included — is unchanged; a `map` of any representable address
performed immediately afterwards succeeds (returns status `0`). -/
theorem dma_set_mask_64bit_flat_spec (dma : dma_device) :
    dma_set_mask_64bit dma = flat_dma_set_mask dma (PHYS_MOD - 1)
    ∧ dma_set_mask_64bit dma = dma
    ∧ ∀ (dbg : Bool) (addr len flags : Nat) (m : dma_mapping),
        (flat_dma_map dbg (dma_set_mask_64bit dma) addr len flags m).rc
          = 0 :=
  ⟨rfl, rfl, fun _ _ _ _ _ => rfl⟩

/-- C7: the flat `dma_set_mask` is a no-op: the operations pointer, the
address mask and both debug counters are unchanged for every device and
mask argument. -/
theorem flat_dma_set_mask_noop (dma : dma_device) (mask : Nat) :
    (flat_dma_set_mask dma mask).op = dma.op
    ∧ (flat_dma_set_mask dma mask).mask = dma.mask
    ∧ (flat_dma_set_mask dma mask).mapped = dma.mapped
    ∧ (flat_dma_set_mask dma mask).allocated = dma.allocated :=
  ⟨rfl, rfl, rfl, rfl⟩

/-- C8: `dma_map_tx_iob` equals the underlying flat `dma_map` applied to
the address and length derived from the I/O buffer with the transmit
flag — same status, same mapping, same device state — and its status is
always `0`, so it introduces no failure modes of its own. -/
theorem dma_map_tx_iob_spec (dbg : Bool) (virt_to_phys : Nat → Nat)
    (dma : dma_device) (iobuf : io_buffer) (m : dma_mapping) :
    dma_map_tx_iob dbg virt_to_phys dma iobuf m
      = flat_dma_map dbg dma (virt_to_phys iobuf.data) (iob_len iobuf)
          DMA_TX m
    ∧ (dma_map_tx_iob dbg virt_to_phys dma iobuf m).rc = 0 :=
  ⟨rfl, rfl⟩

/-- C9: neither the flat `dma_map` nor the flat `dma_unmap` touches the
mapping's `token` field: after `map` the token equals its prior value,
and `unmap` leaves the whole mapping object unchanged. -/
theorem flat_token_frame (dbg : Bool) (dma : dma_device)
    (addr len flags : Nat) (m : dma_mapping) :
    (flat_dma_map dbg dma addr len flags m).map.token = m.token
    ∧ (flat_dma_unmap dbg dma m).map = m :=
  ⟨rfl, rfl⟩

/-- C10: the flat `dma_alloc` writes the mapping's device-address field
unconditionally: it always holds `virt_to_phys` of the allocator's
result, so on allocator failure it is overwritten with the physical
translation of the `NULL` pointer rather than left unchanged. -/
theorem flat_dma_alloc_null_overwrite (virt_to_phys : Nat → Nat)
    (malloc_phys : Nat → Nat → Nat) (dma : dma_device) (len align : Nat)
    (m : dma_mapping) :
    (flat_dma_alloc true virt_to_phys malloc_phys dma len align m).map.addr
      = virt_to_phys (malloc_phys len align)
    ∧ (malloc_phys len align = 0 →
        (flat_dma_alloc true virt_to_phys malloc_phys dma len align
            m).map.addr = virt_to_phys 0) := by
  refine ⟨rfl, fun h => ?_⟩
  simp [flat_dma_alloc, h]

/-- C2: for an address within the device's mask, `map` followed by
`unmap` of the produced record leaves the `mapped` counter at its prior
value, and the produced device address again lies within the mask. -/
theorem flat_map_unmap_roundtrip (dma : dma_device) (addr len flags : Nat)
    (m : dma_mapping)
    (haddr : addr &&& physNot dma.mask = 0)
    (hcnt : dma.mapped < UINT_MOD) :
    (flat_dma_map true dma addr len flags m).map.addr
        &&& physNot dma.mask = 0
    ∧ (flat_dma_unmap true (flat_dma_map true dma addr len flags m).dev
        (flat_dma_map true dma addr len flags m).map).dev.mapped
      = dma.mapped := by
  refine ⟨haddr, ?_⟩
  show ((dma.mapped + 1) % UINT_MOD + (UINT_MOD - 1)) % UINT_MOD
    = dma.mapped
  rcases Nat.lt_or_ge (dma.mapped + 1) UINT_MOD with h | h
  · rw [wrapInc h]
    have h1 : dma.mapped + 1 + (UINT_MOD - 1) = dma.mapped + UINT_MOD := by
      omega
    rw [h1, Nat.add_mod_right, Nat.mod_eq_of_lt hcnt]
  · have he : dma.mapped + 1 = UINT_MOD := by omega
    rw [he, Nat.mod_self, Nat.zero_add]
    rw [Nat.mod_eq_of_lt (by omega)]
    omega

/-- C2 witness: the spec's concrete scenario — mask `0xFFFFFFFF`,
`map ( addr 0x1000, len 64, DMA_TX )` then `unmap` — returns the counter
to its prior value `0`. -/
theorem flat_map_unmap_roundtrip_witness :
    (flat_dma_unmap true
        (flat_dma_map true ⟨0, 4294967295, 0, 0⟩ 4096 64 DMA_TX
            ⟨0, 0⟩).dev
        (flat_dma_map true ⟨0, 4294967295, 0, 0⟩ 4096 64 DMA_TX
            ⟨0, 0⟩).map).dev.mapped = 0 :=
  (flat_map_unmap_roundtrip ⟨0, 4294967295, 0, 0⟩ 4096 64 DMA_TX ⟨0, 0⟩
      (by decide) (by decide)).2

/-- C4: when the external allocator fails (returns `NULL`), the flat
`dma_alloc` returns `NULL` and leaves the device (its `allocated`
counter included) unchanged; when it succeeds, it returns the buffer
pointer, stores the buffer's physical address in the mapping, and
advances the `allocated` counter by one (exactly one while in range). -/
theorem flat_dma_alloc_spec (virt_to_phys : Nat → Nat)
    (malloc_phys : Nat → Nat → Nat) (dma : dma_device) (len align : Nat)
    (m : dma_mapping) :
    (malloc_phys len align = 0 →
      (flat_dma_alloc true virt_to_phys malloc_phys dma len align m).addr
          = 0
      ∧ (flat_dma_alloc true virt_to_phys malloc_phys dma len align
          m).dev = dma)
    ∧ (malloc_phys len align ≠ 0 →
      (flat_dma_alloc true virt_to_phys malloc_phys dma len align m).addr
          = malloc_phys len align
      ∧ (flat_dma_alloc true virt_to_phys malloc_phys dma len align
          m).map.addr = virt_to_phys (malloc_phys len align)
      ∧ (flat_dma_alloc true virt_to_phys malloc_phys dma len align
          m).dev.allocated = (dma.allocated + 1) % UINT_MOD
      ∧ (dma.allocated + 1 < UINT_MOD →
          (flat_dma_alloc true virt_to_phys malloc_phys dma len align
            m).dev.allocated = dma.allocated + 1)) := by
  constructor
  · intro h
    refine ⟨h, ?_⟩
    simp [flat_dma_alloc, h]
  · intro h
    refine ⟨rfl, rfl, ?_, ?_⟩
    · simp [flat_dma_alloc, h]
    · intro hlt
      simp [flat_dma_alloc, h]
      exact wrapInc hlt

/-- C4 witness: a failing allocator leaves the device unchanged, and a
succeeding allocator (returning buffer `8192`) bumps `allocated` to
`1` and records the buffer's physical address. -/
theorem flat_dma_alloc_spec_witness :
    (flat_dma_alloc true (fun x => x) (fun _ _ => 0) ⟨0, 0, 0, 0⟩
        4096 4096 ⟨0, 0⟩).dev = (⟨0, 0, 0, 0⟩ : dma_device)
    ∧ (flat_dma_alloc true (fun x => x) (fun _ _ => 8192) ⟨0, 0, 0, 0⟩
        4096 4096 ⟨0, 0⟩).dev.allocated = 0 + 1 :=
  ⟨((flat_dma_alloc_spec (fun x => x) (fun _ _ => 0) ⟨0, 0, 0, 0⟩
      4096 4096 ⟨0, 0⟩).1 rfl).2,
   ((flat_dma_alloc_spec (fun x => x) (fun _ _ => 8192) ⟨0, 0, 0, 0⟩
      4096 4096 ⟨0, 0⟩).2 (by decide)).2.2.2 (by decide)⟩

/-- C5: a successful `alloc` followed by `free` of the same buffer with
the same length leaves the `allocated` counter at its prior value, and
the buffer handed back to the external allocator is exactly the one
`alloc` produced, with the same length. -/
theorem flat_alloc_free_roundtrip (virt_to_phys : Nat → Nat)
    (malloc_phys : Nat → Nat → Nat) (dma : dma_device) (len align : Nat)
    (m : dma_mapping)
    (hsucc : malloc_phys len align ≠ 0)
    (hcnt : dma.allocated < UINT_MOD) :
    (flat_dma_free true
        (flat_dma_alloc true virt_to_phys malloc_phys dma len align
          m).dev
        (flat_dma_alloc true virt_to_phys malloc_phys dma len align
          m).addr len
        (flat_dma_alloc true virt_to_phys malloc_phys dma len align
          m).map).dev.allocated = dma.allocated
    ∧ (flat_dma_free true
        (flat_dma_alloc true virt_to_phys malloc_phys dma len align
          m).dev
        (flat_dma_alloc true virt_to_phys malloc_phys dma len align
          m).addr len
        (flat_dma_alloc true virt_to_phys malloc_phys dma len align
          m).map).freed = (malloc_phys len align, len) := by
  refine ⟨?_, rfl⟩
  simp only [flat_dma_alloc, flat_dma_free]
  simp only [Bool.true_and, ne_eq, bne_iff_ne, hsucc, not_false_eq_true,
    if_true]
  show ((dma.allocated + 1) % UINT_MOD + (UINT_MOD - 1)) % UINT_MOD
    = dma.allocated
  rcases Nat.lt_or_ge (dma.allocated + 1) UINT_MOD with h | h
  · rw [wrapInc h]
    have h1 : dma.allocated + 1 + (UINT_MOD - 1) = dma.allocated + UINT_MOD := by
      omega
    rw [h1, Nat.add_mod_right, Nat.mod_eq_of_lt hcnt]
  · have he : dma.allocated + 1 = UINT_MOD := by omega
    rw [he, Nat.mod_self, Nat.zero_add]
    rw [Nat.mod_eq_of_lt (by omega)]
    omega

/-- C5 witness: the spec's concrete scenario —
`alloc ( len 4096, align 4096 )` from an allocator returning buffer
`8192`, then `free` with identical arguments — restores `allocated` to
`0` and releases exactly `(8192, 4096)` to the allocator. -/
theorem flat_alloc_free_roundtrip_witness :
    (flat_dma_free true
        (flat_dma_alloc true (fun x => x) (fun _ _ => 8192) ⟨0, 0, 0, 0⟩
          4096 4096 ⟨0, 0⟩).dev
        (flat_dma_alloc true (fun x => x) (fun _ _ => 8192) ⟨0, 0, 0, 0⟩
          4096 4096 ⟨0, 0⟩).addr 4096
        (flat_dma_alloc true (fun x => x) (fun _ _ => 8192) ⟨0, 0, 0, 0⟩
          4096 4096 ⟨0, 0⟩).map).dev.allocated = 0 :=
  (flat_alloc_free_roundtrip (fun x => x) (fun _ _ => 8192) ⟨0, 0, 0, 0⟩
      4096 4096 ⟨0, 0⟩ (by decide) (by decide)).1

/-- Unfolding lemma: running a call sequence proceeds one step at a
time. -/
theorem dmaRun_cons (dbg : Bool) (d : dma_device) (e : DmaEvent)
    (es : List DmaEvent) :
    dmaRun dbg d (e :: es) = dmaRun dbg (dmaStep dbg d e) es := rfl

/-- Effect of a `map` call on an explicit device state. -/
theorem dmaStep_map (op mask m a addr len flags : Nat) :
    dmaStep true ⟨op, mask, m, a⟩ (DmaEvent.map addr len flags)
      = ⟨op, mask, (m + 1) % UINT_MOD, a⟩ := rfl

/-- Effect of an `unmap` call on an explicit device state. -/
theorem dmaStep_unmap (op mask m a : Nat) :
    dmaStep true ⟨op, mask, m, a⟩ DmaEvent.unmap
      = ⟨op, mask, (m + (UINT_MOD - 1)) % UINT_MOD, a⟩ := rfl

/-- Effect of a failed `alloc` call (allocator returned `NULL`) on an
explicit device state. -/
theorem dmaStep_allocNone (op mask m a len align : Nat) :
    dmaStep true ⟨op, mask, m, a⟩ (DmaEvent.alloc len align 0)
      = ⟨op, mask, m, a⟩ := rfl

/-- Effect of a successful `alloc` call on an explicit device state. -/
theorem dmaStep_allocSome {op mask m a len align ptr : Nat}
    (h : (ptr != 0) = true) :
    dmaStep true ⟨op, mask, m, a⟩ (DmaEvent.alloc len align ptr)
      = ⟨op, mask, m, (a + 1) % UINT_MOD⟩ := by
  simp [dmaStep, flat_dma_alloc, h]

/-- Effect of a `free` call on an explicit device state. -/
theorem dmaStep_free (op mask m a addr len : Nat) :
    dmaStep true ⟨op, mask, m, a⟩ (DmaEvent.free addr len)
      = ⟨op, mask, m, (a + (UINT_MOD - 1)) % UINT_MOD⟩ := rfl

/-- Counter-accounting invariant: along any balanced call sequence whose
totals stay within the `unsigned int` range, the debug counters track the
number of outstanding operations exactly. -/
theorem dmaRun_track (es : List DmaEvent) : ∀ (op mask m a : Nat),
    balancedFrom m a es = true →
    m + mapCalls es < UINT_MOD →
    a + allocOkCalls es < UINT_MOD →
    (dmaRun true ⟨op, mask, m, a⟩ es).mapped + unmapCalls es
        = m + mapCalls es
    ∧ (dmaRun true ⟨op, mask, m, a⟩ es).allocated + freeCalls es
        = a + allocOkCalls es := by
  induction es with
  | nil =>
    intro op mask m a _ _ _
    exact ⟨rfl, rfl⟩
  | cons e es ih =>
    intro op mask m a hbal hm ha
    cases e with
    | map addr len flags =>
      simp only [balancedFrom] at hbal
      simp only [mapCalls, unmapCalls, allocOkCalls, freeCalls] at hm ha ⊢
      rw [dmaRun_cons, dmaStep_map, wrapInc (by omega)]
      have h := ih op mask (m + 1) a hbal (by omega) (by omega)
      omega
    | unmap =>
      simp only [balancedFrom, Bool.and_eq_true, decide_eq_true_eq] at hbal
      obtain ⟨h0, hbal⟩ := hbal
      simp only [mapCalls, unmapCalls, allocOkCalls, freeCalls] at hm ha ⊢
      rw [dmaRun_cons, dmaStep_unmap, wrapDec h0 (by omega)]
      have h := ih op mask (m - 1) a hbal (by omega) (by omega)
      omega
    | alloc len align ptr =>
      by_cases hp : ptr = 0
      · subst hp
        simp only [balancedFrom, bne_self_eq_false, Bool.false_eq_true,
          if_false] at hbal
        simp only [mapCalls, unmapCalls, allocOkCalls, freeCalls,
          bne_self_eq_false, Bool.false_eq_true, if_false] at hm ha ⊢
        rw [dmaRun_cons, dmaStep_allocNone]
        have h := ih op mask m a hbal (by omega) (by omega)
        omega
      · have hb : (ptr != 0) = true := by
          simpa using hp
        simp only [balancedFrom, hb, if_true] at hbal
        simp only [mapCalls, unmapCalls, allocOkCalls, freeCalls, hb,
          if_true] at hm ha ⊢
        rw [dmaRun_cons, dmaStep_allocSome hb, wrapInc (by omega)]
        have h := ih op mask m (a + 1) hbal (by omega) (by omega)
        omega
    | free addr len =>
      simp only [balancedFrom, Bool.and_eq_true, decide_eq_true_eq] at hbal
      obtain ⟨h0, hbal⟩ := hbal
      simp only [mapCalls, unmapCalls, allocOkCalls, freeCalls] at hm ha ⊢
      rw [dmaRun_cons, dmaStep_free, wrapDec h0 (by omega)]
      have h := ih op mask m (a - 1) hbal (by omega) (by omega)
      omega

/-- C6: starting from an initial device (both debug counters zero), along
any balanced call sequence (every `unmap`/`free` matches an outstanding
`map`/successful `alloc`) whose totals stay within the `unsigned int`
range, the `mapped` and `allocated` counters always equal the number of
outstanding map and alloc operations (they are naturals, hence never
negative); in particular both are zero whenever nothing is outstanding. -/
theorem flat_counters_balanced (op mask : Nat) (es : List DmaEvent)
    (hbal : balancedFrom 0 0 es = true)
    (hm : mapCalls es < UINT_MOD)
    (ha : allocOkCalls es < UINT_MOD) :
    (dmaRun true ⟨op, mask, 0, 0⟩ es).mapped + unmapCalls es = mapCalls es
    ∧ (dmaRun true ⟨op, mask, 0, 0⟩ es).allocated + freeCalls es
        = allocOkCalls es
    ∧ (unmapCalls es = mapCalls es →
        (dmaRun true ⟨op, mask, 0, 0⟩ es).mapped = 0)
    ∧ (freeCalls es = allocOkCalls es →
        (dmaRun true ⟨op, mask, 0, 0⟩ es).allocated = 0) := by
  have h := dmaRun_track es op mask 0 0 hbal (by omega) (by omega)
  refine ⟨by omega, by omega, fun he => by omega, fun he => by omega⟩

/-- C6 witness: the balanced sequence map, alloc (success), unmap, free
on a fresh device returns both counters to zero. -/
theorem flat_counters_balanced_witness :
    (dmaRun true ⟨0, 0, 0, 0⟩
        [DmaEvent.map 4096 64 1, DmaEvent.alloc 4096 4096 8192,
          DmaEvent.unmap, DmaEvent.free 8192 4096]).mapped = 0
    ∧ (dmaRun true ⟨0, 0, 0, 0⟩
        [DmaEvent.map 4096 64 1, DmaEvent.alloc 4096 4096 8192,
          DmaEvent.unmap, DmaEvent.free 8192 4096]).allocated = 0 := by
  have h := flat_counters_balanced 0 0
    [DmaEvent.map 4096 64 1, DmaEvent.alloc 4096 4096 8192,
      DmaEvent.unmap, DmaEvent.free 8192 4096]
    (by decide) (by decide) (by decide)
  exact ⟨h.2.2.1 (by decide), h.2.2.2 (by decide)⟩

/-- C10 witness: a failing allocator (always `NULL`) with
`virt_to_phys x = x + 7` overwrites a mapping whose address field held
`999` with `virt_to_phys 0 = 7`. -/
theorem flat_dma_alloc_null_overwrite_witness :
    (flat_dma_alloc true (fun x => x + 7) (fun _ _ => 0) ⟨0, 0, 0, 0⟩
        16 16 ⟨999, 0⟩).map.addr = 7 :=
  (flat_dma_alloc_null_overwrite (fun x => x + 7) (fun _ _ => 0)
      ⟨0, 0, 0, 0⟩ 16 16 ⟨999, 0⟩).2 rfl

end Ipxe
